import Mathlib

/-!
Shallow embedding of `src/uv_manager.py` (the "UV Manager" core: resilient
process executor, environment manager, dependency installer, cache manager).

External effects (subprocess invocation, the filesystem, the process-wide
interrupt flag, the clock) are modelled as oracles packaged in explicit
world structures; each Python function becomes a Lean function from its
world and arguments to its observable result, paired where relevant with a
trace of the externally visible events it performs (attempts run, sleeps,
commands submitted to the executor).
-/

namespace UvManager

/-- Constant `DEFAULT_TIMEOUT = 300` from the source. Timeouts are forwarded
to `subprocess.run` and so are absorbed into the attempt-outcome oracle (an
expired timeout surfaces as the `timeout` attempt result). -/
def DEFAULT_TIMEOUT : Nat := 300

/-- Constant `MAX_RETRIES = 3` from the source. -/
def MAX_RETRIES : Nat := 3

/-- Constant `RETRY_DELAY = 5` (seconds) from the source. -/
def RETRY_DELAY : Nat := 5

/-- Outcome of one `subprocess.run` invocation inside `run_command`:
normal exit 0 with captured stdout, `subprocess.TimeoutExpired`,
`subprocess.CalledProcessError` (non-zero exit under `check=True`), or any
other exception (e.g. executable not found). -/
inductive AttemptResult where
  | success (stdout : String)
  | timeout
  | nonzeroExit
  | unexpectedError
deriving DecidableEq

/-- Return value of `run_command`: `result.stdout.strip()` in captured mode,
`True` in streamed mode, or `None` (the absence outcome). -/
inductive CommandOutcome where
  | captured (s : String)
  | streamedOk
  | absent
deriving DecidableEq

/-- Externally visible events of a `run_command` call: an attempt (1-based
attempt number) actually invoking the external command, and a
`time.sleep` of a given number of seconds between retries. -/
inductive Event where
  | ranAttempt (n : Nat)
  | slept (secs : Nat)
deriving DecidableEq

/-- Oracle world for one `run_command` call: the result the external command
would produce on its n-th attempt (1-based), and the value of the global
`INTERRUPTED` flag as observed by the check at the top of the loop when the
local `attempt` counter has the given value (0-based; the flag is set at
most once by a signal handler and never reset, but no monotonicity is
needed for the claims). -/
structure World where
  attemptResult : Nat → AttemptResult
  interrupted : Nat → Bool

/-- The `while attempt < retries` loop body of `run_command`
(src/uv_manager.py lines 65-114), entered with the current value of the
local `attempt` counter. Returns the trace of events performed from this
point on together with the returned outcome. `retries` is an `int` in
Python and is kept as `Int` here; `attempt` starts at 0 and only ever
increments. Falling off the loop returns Python `None`, i.e. `absent`. -/
def runCommandLoop (w : World) (capture_output check_interruption : Bool)
    (retries : Int) (attempt : Nat) : List Event × CommandOutcome :=
  if h : (attempt : Int) < retries then
    if check_interruption && w.interrupted attempt then
      ([], .absent)
    else
      match w.attemptResult (attempt + 1) with
      | .success out =>
          ([.ranAttempt (attempt + 1)],
            if capture_output then .captured out.trim else .streamedOk)
      | .timeout =>
          if ((attempt + 1 : Nat) : Int) < retries then
            let rest := runCommandLoop w capture_output check_interruption retries (attempt + 1)
            (.ranAttempt (attempt + 1) :: .slept RETRY_DELAY :: rest.1, rest.2)
          else
            ([.ranAttempt (attempt + 1)], .absent)
      | .nonzeroExit =>
          if ((attempt + 1 : Nat) : Int) < retries then
            let rest := runCommandLoop w capture_output check_interruption retries (attempt + 1)
            (.ranAttempt (attempt + 1) :: .slept RETRY_DELAY :: rest.1, rest.2)
          else
            ([.ranAttempt (attempt + 1)], .absent)
      | .unexpectedError =>
          ([.ranAttempt (attempt + 1)], .absent)
  else
    ([], .absent)
termination_by (retries - (attempt : Int)).toNat
decreasing_by
  all_goals omega

/-- Python `run_command(command, capture_output, timeout, retries,
check_interruption)` (src/uv_manager.py lines 61-114): `attempt = 0` then
the retry loop. The command string and the timeout only parameterize the
oracle `w`. -/
def run_command (w : World) (capture_output check_interruption : Bool)
    (retries : Int) : List Event × CommandOutcome :=
  runCommandLoop w capture_output check_interruption retries 0

/-- Whether an attempt ended in a transient failure (timeout or non-zero
exit), the two cases the loop retries. -/
def isTransientFailure : AttemptResult → Bool
  | .timeout => true
  | .nonzeroExit => true
  | _ => false

/-- Number of external-command invocations recorded in a trace. -/
def countRuns : List Event → Nat
  | [] => 0
  | .ranAttempt _ :: rest => countRuns rest + 1
  | .slept _ :: rest => countRuns rest

/-- Number of inter-retry sleeps of exactly `RETRY_DELAY` seconds recorded
in a trace. -/
def countDelaySleeps : List Event → Nat
  | [] => 0
  | .slept s :: rest =>
      if s = RETRY_DELAY then countDelaySleeps rest + 1 else countDelaySleeps rest
  | .ranAttempt _ :: rest => countDelaySleeps rest

/-- The event trace of `k` consecutive failing attempts starting after
`attempt` prior ones: attempt numbers `attempt+1, ..., attempt+k`, with a
fixed `RETRY_DELAY` sleep between consecutive attempts. -/
def failTrace : Nat → Nat → List Event
  | 0, _ => []
  | 1, a => [.ranAttempt (a + 1)]
  | k + 2, a => .ranAttempt (a + 1) :: .slept RETRY_DELAY :: failTrace (k + 1) (a + 1)

theorem failTrace_countRuns (k a : Nat) : countRuns (failTrace k a) = k := by
  induction k using Nat.strong_induction_on generalizing a with
  | _ k ih =>
    match k with
    | 0 => rfl
    | 1 => rfl
    | k + 2 =>
      have h := ih (k + 1) (by omega) (a + 1)
      simp only [failTrace, countRuns, h]

theorem failTrace_countDelaySleeps (k a : Nat) :
    countDelaySleeps (failTrace k a) = k - 1 := by
  induction k using Nat.strong_induction_on generalizing a with
  | _ k ih =>
    match k with
    | 0 => rfl
    | 1 => rfl
    | k + 2 =>
      have h := ih (k + 1) (by omega) (a + 1)
      simp [failTrace, countDelaySleeps, h]

/-- When every attempt fails transiently and the interrupt flag is never
observed set, the loop entered at `attempt < retries` runs all remaining
`(retries - attempt)` attempts, sleeping between consecutive ones, and
returns the absence outcome. -/
theorem runCommandLoop_allFail (w : World) (cap chk : Bool) (retries : Int)
    (attempt : Nat)
    (hfail : ∀ n, isTransientFailure (w.attemptResult n) = true)
    (hint : ∀ n, w.interrupted n = false)
    (h : (attempt : Int) < retries) :
    runCommandLoop w cap chk retries attempt =
      (failTrace (retries - (attempt : Int)).toNat attempt, .absent) := by
  have hmeas : ∀ k (a : Nat), (retries - (a : Int)).toNat = k → (a : Int) < retries →
      runCommandLoop w cap chk retries a = (failTrace k a, .absent) := by
    intro k
    induction k using Nat.strong_induction_on with
    | _ k ih =>
      intro a hk ha
      rw [runCommandLoop]
      simp only [ha, dite_true, hint a, Bool.and_false]
      have hfa := hfail (a + 1)
      cases hres : w.attemptResult (a + 1) with
      | success out => rw [hres] at hfa; simp [isTransientFailure] at hfa
      | unexpectedError => rw [hres] at hfa; simp [isTransientFailure] at hfa
      | timeout =>
        by_cases hlt : ((a + 1 : Nat) : Int) < retries
        · have hrec := ih (k - 1) (by omega) (a + 1) (by omega) hlt
          obtain ⟨m, rfl⟩ : ∃ m, k = m + 2 := ⟨k - 2, by omega⟩
          simp [hlt, hrec, failTrace]
          omega
        · simp only [hlt, if_false]
          obtain rfl : k = 1 := by omega
          rfl
      | nonzeroExit =>
        by_cases hlt : ((a + 1 : Nat) : Int) < retries
        · have hrec := ih (k - 1) (by omega) (a + 1) (by omega) hlt
          obtain ⟨m, rfl⟩ : ∃ m, k = m + 2 := ⟨k - 2, by omega⟩
          simp [hlt, hrec, failTrace]
          omega
        · simp only [hlt, if_false]
          obtain rfl : k = 1 := by omega
          rfl
  exact hmeas _ attempt rfl h

/-- Filesystem oracle: `os.path.exists` and `os.path.isfile`. -/
structure FS where
  pathExists : String → Bool
  isFile : String → Bool

/-- Outcome of the verification probe `subprocess.run([python_bin,
"--version"], ..., timeout=10)` inside `verify_venv`: a normal completion
with a return code, a `TimeoutExpired`, or any other exception. Both of
the latter are caught by the `except Exception` clause. The probe's
stdout/stderr are only logged and are not modelled. -/
inductive ProbeResult where
  | exited (returncode : Int)
  | timedOut
  | raised
deriving DecidableEq

/-- Oracle world for the environment manager: the filesystem, the probe
behaviour of executing a given binary with `--version`, and the
`os.path.abspath(os.path.expanduser(...))` path normalisation (opaque). -/
structure VenvWorld where
  fs : FS
  probe : String → ProbeResult
  expandPath : String → String

/-- Python `os.path.join(a, b)` for the relative components used here. -/
def joinPath (a b : String) : String := a ++ "/" ++ b

/-- Python `verify_venv(path)` (src/uv_manager.py lines 309-339): both
`bin/python` and `bin/pip` under the path must exist and be regular files,
then the python binary is executed with `--version` under a 10 second
timeout; non-zero exit, timeout or any exception yields `False`. -/
def verify_venv (w : VenvWorld) (path : String) : Bool :=
  let python_bin := joinPath (joinPath path "bin") "python"
  let pip_bin := joinPath (joinPath path "bin") "pip"
  if !w.fs.pathExists python_bin || !w.fs.isFile python_bin then
    false
  else if !w.fs.pathExists pip_bin || !w.fs.isFile pip_bin then
    false
  else
    match w.probe python_bin with
    | .exited returncode => if returncode ≠ 0 then false else true
    | .timedOut => false
    | .raised => false

/-- Python truthiness of an optional string argument: `None` and the empty
string are falsy. -/
def truthyStr : Option String → Bool
  | none => false
  | some s => !(s == "")

/-- Python truthiness of an optional list argument: `None` and the empty
list are falsy. -/
def truthyList : Option (List String) → Bool
  | none => false
  | some l => !l.isEmpty

/-- Python `install_dependencies(venv_path, requirements_file,
package_list, dev, parallel)` (src/uv_manager.py lines 341-384). The first
component of the result is the list of command strings submitted to the
executor (`run_command`); the verification probe of `verify_venv` is part
of the Environment Manager's verification contract and is not an executor
submission. The 600 second timeout is absorbed into the oracle `exec`. -/
def install_dependencies (w : VenvWorld) (exec : World) (venv_path : String)
    (requirements_file : Option String) (package_list : Option (List String))
    (dev parallel : Bool) : List String × Bool :=
  if !verify_venv w venv_path then
    ([], false)
  else
    let python_bin := joinPath (joinPath venv_path "bin") "python"
    if truthyStr requirements_file then
      let command := python_bin ++ " -m uv pip install -r " ++ requirements_file.getD ""
      let command := if dev then command ++ " --dev" else command
      let command := if parallel then command ++ " --parallel" else command
      let result := (run_command exec false true (MAX_RETRIES : Int)).2
      if result = .absent then ([command], false) else ([command], true)
    else if truthyList package_list then
      let packages := String.intercalate " " (package_list.getD [])
      let command := python_bin ++ " -m uv pip install " ++ packages
      let command := if parallel then command ++ " --parallel" else command
      let result := (run_command exec false true (MAX_RETRIES : Int)).2
      if result = .absent then ([command], false) else ([command], true)
    else
      ([], false)

/-- Python `install_editable(venv_path, project_path, parallel)`
(src/uv_manager.py lines 386-411), with the same trace convention as
`install_dependencies`. -/
def install_editable (w : VenvWorld) (exec : World)
    (venv_path project_path : String) (parallel : Bool) : List String × Bool :=
  if !verify_venv w venv_path then
    ([], false)
  else
    let python_bin := joinPath (joinPath venv_path "bin") "python"
    let command := python_bin ++ " -m uv pip install -e " ++ project_path
    let command := if parallel then command ++ " --parallel" else command
    let result := (run_command exec false true (MAX_RETRIES : Int)).2
    if result = .absent then ([command], false) else ([command], true)

/-- Python `create_venv(path, python_version, timeout, retries)`
(src/uv_manager.py lines 253-307). `uvInstalled` is the
`shutil.which("uv")` oracle; `w.fs` is the filesystem state as observed
after the creation command ran (the pre-run existence check only prints a
warning and has no behavioural effect). Returns the commands submitted to
the executor and the overall boolean result. -/
def create_venv (w : VenvWorld) (uvInstalled : Bool) (exec : World)
    (path : String) (python_version : Option String) (retries : Int) :
    List String × Bool :=
  if !uvInstalled then
    ([], false)
  else
    let path := w.expandPath path
    let command := "uv venv " ++ path
    let command := match python_version with
      | some v => command ++ " --python " ++ v
      | none => command
    let result := (run_command exec false true retries).2
    if result = .absent then
      if w.fs.pathExists path then
        if verify_venv w path then ([command], true) else ([command], false)
      else
        ([command], false)
    else
      if verify_venv w path then ([command], true) else ([command], false)

/-- One file under the cache tree as seen by the `os.walk` traversal, with
its `os.path.getmtime` value in seconds. -/
structure CacheFile where
  path : String
  mtime : Int
deriving DecidableEq

/-- Oracle world for `clean_cache`: whether the cache root and its
download subdirectory exist, the files under the tree in walk order,
`time.time()`, whether a file still exists when re-checked during the walk
(race with concurrent writers), whether `os.remove` raises for a file, and
whether the full-wipe `shutil.rmtree`/`os.makedirs` block raises. -/
structure CacheWorld where
  cacheExists : Bool
  downloadExists : Bool
  files : List CacheFile
  now : Int
  stillExists : String → Bool
  removeFails : String → Bool
  rmtreeFails : Bool

/-- Resulting cache-tree state after `clean_cache`: remaining files and
existence of the cache root and download subdirectory. On a failed
full-wipe the partially deleted tree is not modelled more precisely than
as the prior state. -/
structure CacheState where
  files : List CacheFile
  rootExists : Bool
  downloadExists : Bool
deriving DecidableEq

/-- Python truthiness of the optional `older_than_days` int: `None` and
`0` are falsy; every non-zero integer (including negatives) is truthy. -/
def truthyInt : Option Int → Bool
  | none => false
  | some d => !(d == 0)

/-- The age-bounded deletion walk of `clean_cache` (src/uv_manager.py
lines 471-479): for each file, if it still exists and its mtime precedes
the cutoff, attempt `os.remove`; a raising removal is logged and the file
is left in place. Returns the files remaining after the walk. -/
def removeOldFiles (w : CacheWorld) (cutoff : Int) : List CacheFile → List CacheFile
  | [] => []
  | f :: rest =>
      if w.stillExists f.path && decide (f.mtime < cutoff) then
        if w.removeFails f.path then f :: removeOldFiles w cutoff rest
        else removeOldFiles w cutoff rest
      else
        f :: removeOldFiles w cutoff rest

/-- Python `clean_cache(older_than_days)` (src/uv_manager.py lines
458-498). Returns the resulting cache state together with the boolean
result. The `get_directory_size` calls only feed the printed report and
do not affect the result. Note `if older_than_days:` is a truthiness
test, so `older_than_days = 0` selects the full-wipe branch. -/
def clean_cache (w : CacheWorld) (older_than_days : Option Int) :
    CacheState × Bool :=
  if !w.cacheExists then
    (⟨w.files, w.cacheExists, w.downloadExists⟩, true)
  else if truthyInt older_than_days then
    let d := older_than_days.getD 0
    let cutoff := w.now - d * 24 * 60 * 60
    (⟨removeOldFiles w cutoff w.files, w.cacheExists, w.downloadExists⟩, true)
  else
    if w.rmtreeFails then
      (⟨w.files, w.cacheExists, w.downloadExists⟩, false)
    else
      (⟨[], true, true⟩, true)

/-- Executor oracle in which every attempt exits non-zero and the
interrupt flag is never set. -/
def wAllFail : World := { attemptResult := fun _ => .nonzeroExit, interrupted := fun _ => false }

/-- Executor oracle in which every attempt succeeds and the interrupt flag
is never set. -/
def wFirstOk : World := { attemptResult := fun _ => .success "ok", interrupted := fun _ => false }

/-- Executor oracle in which the interrupt flag is always observed set. -/
def wStopped : World := { attemptResult := fun _ => .success "ok", interrupted := fun _ => true }

/-- Executor oracle in which every attempt raises an unexpected error. -/
def wRaises : World := { attemptResult := fun _ => .unexpectedError, interrupted := fun _ => false }

/-- Venv world with an empty filesystem: no binary exists. -/
def vwBad : VenvWorld :=
  { fs := { pathExists := fun _ => false, isFile := fun _ => false },
    probe := fun _ => .raised, expandPath := fun p => p }

/-- Venv world in which every path exists as a regular file and every
probe exits zero. -/
def vwGood : VenvWorld :=
  { fs := { pathExists := fun _ => true, isFile := fun _ => true },
    probe := fun _ => .exited 0, expandPath := fun p => p }

/-- When the first attempt exits zero, the loop performs exactly that one
attempt and returns the successful outcome. Helper for evaluating
`run_command` at concrete inputs (its well-founded recursion does not
reduce definitionally). -/
theorem run_command_firstSuccess (w : World) (cap chk : Bool) (retries : Int)
    (s : String) (h : 0 < retries) (hs : w.attemptResult 1 = .success s)
    (hi : (chk && w.interrupted 0) = false) :
    run_command w cap chk retries =
      ([.ranAttempt 1], if cap then .captured s.trim else .streamedOk) := by
  rw [run_command, runCommandLoop]
  have h0 : (((0 : Nat)) : Int) < retries := by omega
  simp [h0, hi, hs]
  omega

/-- C1: with retry bound N ≥ 1, a command failing transiently on every
attempt, and the interrupt flag never set, `run_command` performs exactly
N attempts with a fixed `RETRY_DELAY` sleep between consecutive attempts
(N-1 sleeps) and returns the absence outcome; the trace is exactly the
alternating attempt/sleep sequence, so no more than N attempts occur. -/
theorem run_command_allFail_exactRetries (w : World) (cap chk : Bool) (N : Nat)
    (hN : 1 ≤ N)
    (hfail : ∀ n, isTransientFailure (w.attemptResult n) = true)
    (hint : ∀ n, w.interrupted n = false) :
    run_command w cap chk (N : Int) = (failTrace N 0, .absent) ∧
    countRuns (run_command w cap chk (N : Int)).1 = N ∧
    countDelaySleeps (run_command w cap chk (N : Int)).1 = N - 1 ∧
    (run_command w cap chk (N : Int)).2 = .absent := by
  have h0 : (((0 : Nat)) : Int) < (N : Int) := by omega
  have hloop := runCommandLoop_allFail w cap chk (N : Int) 0 hfail hint h0
  have hN' : ((N : Int) - (((0 : Nat)) : Int)).toNat = N := by omega
  rw [hN'] at hloop
  rw [run_command, hloop]
  exact ⟨rfl, failTrace_countRuns N 0, failTrace_countDelaySleeps N 0, rfl⟩

/-- Witness for C1 at N = 3 with a command that always exits non-zero. -/
theorem run_command_allFail_exactRetries_witness :
    1 ≤ 3 ∧
    (run_command wAllFail true true ((3 : Nat) : Int) = (failTrace 3 0, .absent) ∧
     countRuns (run_command wAllFail true true ((3 : Nat) : Int)).1 = 3 ∧
     countDelaySleeps (run_command wAllFail true true ((3 : Nat) : Int)).1 = 3 - 1 ∧
     (run_command wAllFail true true ((3 : Nat) : Int)).2 = .absent) :=
  ⟨by decide,
   run_command_allFail_exactRetries wAllFail true true 3 (by decide)
     (fun _ => rfl) (fun _ => rfl)⟩

/-- C4: with cancellation checking enabled, if the interrupt flag is
observed set at the check before an attempt would start, the loop performs
zero further attempts and returns the absence outcome immediately; in
particular with the flag set before the first attempt, `run_command`
performs zero attempts. -/
theorem run_command_interrupted_noAttempts (w : World) (cap : Bool)
    (retries : Int) (attempt : Nat) (h : w.interrupted attempt = true) :
    runCommandLoop w cap true retries attempt = ([], .absent) ∧
    (attempt = 0 → run_command w cap true retries = ([], .absent)) := by
  have hmain : runCommandLoop w cap true retries attempt = ([], .absent) := by
    rw [runCommandLoop]
    by_cases hlt : (attempt : Int) < retries
    · simp [hlt, h]
    · simp [hlt]
  refine ⟨hmain, fun h0 => ?_⟩
  subst h0
  exact hmain

/-- Witness for C4: flag set at every check, retry bound 3, first
attempt. -/
theorem run_command_interrupted_noAttempts_witness :
    wStopped.interrupted 0 = true ∧
    (runCommandLoop wStopped true true 3 0 = ([], .absent) ∧
     (0 = 0 → run_command wStopped true true 3 = ([], .absent))) :=
  ⟨rfl, run_command_interrupted_noAttempts wStopped true 3 0 rfl⟩

/-- C8: when an attempt raises an unexpected error (neither a timeout nor
a non-zero exit) and the loop was not aborted by the interruption check,
the loop returns the absence outcome right after that attempt: no further
attempt is run and no inter-retry sleep is performed. -/
theorem run_command_unexpectedError_stops (w : World) (cap chk : Bool)
    (retries : Int) (attempt : Nat)
    (h : (attempt : Int) < retries)
    (hni : (chk && w.interrupted attempt) = false)
    (herr : w.attemptResult (attempt + 1) = .unexpectedError) :
    runCommandLoop w cap chk retries attempt = ([.ranAttempt (attempt + 1)], .absent) ∧
    (attempt = 0 → run_command w cap chk retries = ([.ranAttempt 1], .absent)) := by
  have hmain : runCommandLoop w cap chk retries attempt =
      ([.ranAttempt (attempt + 1)], .absent) := by
    rw [runCommandLoop]
    simp [h, hni, herr]
  refine ⟨hmain, fun h0 => ?_⟩
  subst h0
  exact hmain

/-- Witness for C8: first attempt raises, retry bound 3; exactly one
attempt appears in the trace and no sleep. -/
theorem run_command_unexpectedError_stops_witness :
    ((0 : Nat) : Int) < 3 ∧ (true && wRaises.interrupted 0) = false ∧
    wRaises.attemptResult 1 = .unexpectedError ∧
    (runCommandLoop wRaises true true 3 0 = ([.ranAttempt 1], .absent) ∧
     (0 = 0 → run_command wRaises true true 3 = ([.ranAttempt 1], .absent))) :=
  ⟨by decide, rfl, rfl,
   run_command_unexpectedError_stops wRaises true true 3 0 (by decide) rfl rfl⟩

/-- C9: with a retry bound ≤ 0 the loop condition fails immediately, so
`run_command` performs zero attempts, sleeps no delay, and falls off the
loop returning the absence outcome. -/
theorem run_command_nonpositiveRetries (w : World) (cap chk : Bool)
    (retries : Int) (h : retries ≤ 0) :
    run_command w cap chk retries = ([], .absent) := by
  have hn : ¬((((0 : Nat)) : Int) < retries) := by omega
  rw [run_command, runCommandLoop, dif_neg hn]

/-- Witness for C9 at retries = 0 with a command that would succeed if it
were ever run. -/
theorem run_command_nonpositiveRetries_witness :
    (0 : Int) ≤ 0 ∧ run_command wFirstOk true true 0 = ([], .absent) :=
  ⟨by decide, run_command_nonpositiveRetries wFirstOk true true 0 (by decide)⟩

/-- C2: `verify_venv(path)` is true exactly when `bin/python` and
`bin/pip` under the path both exist and are regular files and the python
probe completes with exit code zero; every missing or non-regular entry,
non-zero exit, timeout, or raised exception yields false. -/
theorem verify_venv_true_iff (w : VenvWorld) (path : String) :
    verify_venv w path = true ↔
      (w.fs.pathExists (joinPath (joinPath path "bin") "python") = true ∧
       w.fs.isFile (joinPath (joinPath path "bin") "python") = true ∧
       w.fs.pathExists (joinPath (joinPath path "bin") "pip") = true ∧
       w.fs.isFile (joinPath (joinPath path "bin") "pip") = true ∧
       w.probe (joinPath (joinPath path "bin") "python") = .exited 0) := by
  simp only [verify_venv]
  cases h1 : w.fs.pathExists (joinPath (joinPath path "bin") "python") <;>
    cases h2 : w.fs.isFile (joinPath (joinPath path "bin") "python") <;>
      cases h3 : w.fs.pathExists (joinPath (joinPath path "bin") "pip") <;>
        cases h4 : w.fs.isFile (joinPath (joinPath path "bin") "pip") <;>
          simp [h1, h2, h3, h4]
  cases h5 : w.probe (joinPath (joinPath path "bin") "python") with
  | exited rc =>
      by_cases hrc : rc = 0 <;> simp [hrc]
  | timedOut => simp
  | raised => simp

/-- C3: both installers refuse when the environment does not verify, with
no command submitted to the executor; and `install_dependencies` with
neither a (truthy) requirements file nor a (truthy) package list fails
with no command submitted either. -/
theorem install_refuses_without_valid_env (w : VenvWorld) (exec : World)
    (venv_path project_path : String) (requirements_file : Option String)
    (package_list : Option (List String)) (dev parallel : Bool) :
    (verify_venv w venv_path = false →
      install_dependencies w exec venv_path requirements_file package_list dev parallel
        = ([], false) ∧
      install_editable w exec venv_path project_path parallel = ([], false)) ∧
    (truthyStr requirements_file = false → truthyList package_list = false →
      install_dependencies w exec venv_path requirements_file package_list dev parallel
        = ([], false)) := by
  constructor
  · intro hv
    constructor
    · simp [install_dependencies, hv]
    · simp [install_editable, hv]
  · intro hr hp
    by_cases hv : verify_venv w venv_path <;>
      simp [install_dependencies, hv, hr, hp]

/-- Witness for C3: an empty filesystem fails verification, so both
installers return immediately with an empty executor trace; and with a
valid environment but no target supplied, `install_dependencies` still
fails with an empty trace. -/
theorem install_refuses_without_valid_env_witness :
    verify_venv vwBad "/v" = false ∧
    (install_dependencies vwBad wFirstOk "/v" (some "req.txt") (some ["pkg"]) false true
       = ([], false) ∧
     install_editable vwBad wFirstOk "/v" "/proj" true = ([], false)) ∧
    (truthyStr (none : Option String) = false ∧ truthyList (none : Option (List String)) = false ∧
     install_dependencies vwGood wFirstOk "/v" none none false true = ([], false)) :=
  ⟨rfl,
   (install_refuses_without_valid_env vwBad wFirstOk "/v" "/proj" (some "req.txt")
      (some ["pkg"]) false true).1 rfl,
   rfl, rfl,
   (install_refuses_without_valid_env vwGood wFirstOk "/v" "/proj" none none false true).2
      rfl rfl⟩

/-- The install command built from a requirements file
(src/uv_manager.py lines 356-360): it mentions only the requirements
file, never the package list. -/
def reqInstallCommand (venv_path requirements_file : String) (dev parallel : Bool) : String :=
  let python_bin := joinPath (joinPath venv_path "bin") "python"
  let command := python_bin ++ " -m uv pip install -r " ++ requirements_file
  let command := if dev then command ++ " --dev" else command
  if parallel then command ++ " --parallel" else command

/-- C7: when both a (truthy) requirements file and a (truthy) package list
are supplied to `install_dependencies` against a verifying environment,
the single submitted command is the requirements-file command (built
without reference to the package list), and the whole result coincides
with the result of the same call with no package list at all. -/
theorem install_dependencies_requirements_precedence (w : VenvWorld) (exec : World)
    (venv_path r : String) (hr : r ≠ "")
    (package_list : Option (List String)) (hp : truthyList package_list = true)
    (dev parallel : Bool) (hv : verify_venv w venv_path = true) :
    (install_dependencies w exec venv_path (some r) package_list dev parallel).1 =
      [reqInstallCommand venv_path r dev parallel] ∧
    install_dependencies w exec venv_path (some r) package_list dev parallel =
      install_dependencies w exec venv_path (some r) none dev parallel := by
  have htr : truthyStr (some r) = true := by simp [truthyStr, hr]
  constructor
  · simp only [install_dependencies, hv, Bool.not_true, Bool.false_eq_true, if_false, htr,
      if_true, reqInstallCommand]
    by_cases hres : (run_command exec false true ((MAX_RETRIES : Nat) : Int)).2 = .absent <;>
      simp [hres]
  · simp [install_dependencies, hv, htr]

/-- Witness for C7: a verifying environment, requirements file
`req.txt`, package list `["pkg"]`. -/
theorem install_dependencies_requirements_precedence_witness :
    "req.txt" ≠ "" ∧ truthyList (some ["pkg"]) = true ∧ verify_venv vwGood "/v" = true ∧
    ((install_dependencies vwGood wFirstOk "/v" (some "req.txt") (some ["pkg"]) true true).1 =
       [reqInstallCommand "/v" "req.txt" true true] ∧
     install_dependencies vwGood wFirstOk "/v" (some "req.txt") (some ["pkg"]) true true =
       install_dependencies vwGood wFirstOk "/v" (some "req.txt") none true true) :=
  ⟨by decide, rfl, rfl,
   install_dependencies_requirements_precedence vwGood wFirstOk "/v" "req.txt"
     (by decide) (some ["pkg"]) rfl true true rfl⟩

/-- C6: with the tool installed, `create_venv` reports success exactly as
`verify_venv` does on the expanded path, in both interesting cases: when
the creation command fails but the target path exists (the partial
environment is verified instead of declaring outright failure), and when
the creation command succeeds (a created-but-unverifiable environment is
failure). -/
theorem create_venv_success_iff_verified (w : VenvWorld) (uv : Bool) (exec : World)
    (path : String) (pv : Option String) (retries : Int) (huv : uv = true) :
    ((run_command exec false true retries).2 = .absent →
       w.fs.pathExists (w.expandPath path) = true →
       (create_venv w uv exec path pv retries).2 = verify_venv w (w.expandPath path)) ∧
    ((run_command exec false true retries).2 ≠ .absent →
       (create_venv w uv exec path pv retries).2 = verify_venv w (w.expandPath path)) := by
  subst huv
  constructor
  · intro habs hex
    simp only [create_venv, Bool.not_true, Bool.false_eq_true, if_false, habs, if_true, hex]
    by_cases hvv : verify_venv w (w.expandPath path) <;> simp [hvv]
  · intro hok
    simp only [create_venv, Bool.not_true, Bool.false_eq_true, if_false, if_neg hok]
    by_cases hvv : verify_venv w (w.expandPath path) <;> simp [hvv]

/-- Witness for C6: the creation command succeeds on its first attempt
and the created environment verifies, so `create_venv` agrees with
`verify_venv`; the non-absence side condition is discharged through the
first-success evaluation lemma. -/
theorem create_venv_success_iff_verified_witness :
    true = true ∧
    (create_venv vwGood true wFirstOk "/v" none 3).2 = verify_venv vwGood (vwGood.expandPath "/v") :=
  ⟨rfl,
   (create_venv_success_iff_verified vwGood true wFirstOk "/v" none 3 rfl).2
     (by rw [run_command_firstSuccess wFirstOk false true 3 "ok" (by decide) rfl rfl]; decide)⟩

theorem removeOldFiles_eq_filter (w : CacheWorld) (cutoff : Int) (l : List CacheFile) :
    removeOldFiles w cutoff l =
      l.filter (fun f =>
        !(w.stillExists f.path && decide (f.mtime < cutoff) && !w.removeFails f.path)) := by
  induction l with
  | nil => rfl
  | cons f rest ih =>
    simp only [removeOldFiles, List.filter_cons]
    by_cases h1 : (w.stillExists f.path && decide (f.mtime < cutoff)) = true
    · by_cases h2 : w.removeFails f.path = true <;> simp [h1, h2, ih]
    · have hab : (w.stillExists f.path && decide (f.mtime < cutoff)) = false := by
        cases hx : (w.stillExists f.path && decide (f.mtime < cutoff)) <;> simp_all
      simp [hab, ih]

/-- Cache world whose single file was modified exactly at the current
time, so it is not older than any cutoff of the form `now - d` days for
d ≥ 0. -/
def cwFresh : CacheWorld :=
  { cacheExists := true, downloadExists := true,
    files := [⟨"/cache/fresh", 1000⟩], now := 1000,
    stillExists := fun _ => true, removeFails := fun _ => false,
    rmtreeFails := false }

/-- Counterexample to C5 as stated: `older_than_days = 0` is a supplied
value, yet `clean_cache` full-wipes (the Python truthiness test `if
older_than_days:` treats 0 like `None`): the file whose mtime equals the
cutoff `now - 0 days`, which age-bounded mode must leave in place, is
deleted. -/
theorem clean_cache_zero_days_wipes :
    (clean_cache cwFresh (some 0)).1.files = [] ∧
    cwFresh.files = [⟨"/cache/fresh", 1000⟩] ∧
    ¬((1000 : Int) < cwFresh.now - 0 * 24 * 60 * 60) :=
  ⟨rfl, rfl, by norm_num [cwFresh]⟩

/-- C5 (amended): for every supplied nonzero `older_than_days`,
`clean_cache` runs in age-bounded mode — it deletes exactly the walked
files that still exist, whose mtime precedes `now - older_than_days`
days, and whose removal does not raise (a raising removal is skipped, not
fatal), keeps the directory structure, and returns true; it full-wipes,
leaving an empty root with an empty download subdirectory, both when
`older_than_days` is absent and when it is 0. -/
theorem clean_cache_modes (w : CacheWorld) (hc : w.cacheExists = true) :
    (∀ d : Int, d ≠ 0 →
      clean_cache w (some d) =
        (⟨w.files.filter (fun f =>
            !(w.stillExists f.path && decide (f.mtime < w.now - d * 24 * 60 * 60) &&
              !w.removeFails f.path)), true, w.downloadExists⟩, true)) ∧
    (w.rmtreeFails = false →
      clean_cache w none = (⟨[], true, true⟩, true) ∧
      clean_cache w (some 0) = (⟨[], true, true⟩, true)) := by
  constructor
  · intro d hd
    have htr : truthyInt (some d) = true := by simp [truthyInt, hd]
    simp [clean_cache, hc, htr, removeOldFiles_eq_filter]
  · intro hrm
    have htr : truthyInt (some 0) = false := by simp [truthyInt]
    constructor <;> simp [clean_cache, hc, htr, truthyInt, hrm]

/-- Witness for the amended C5: a cache with one stale and one fresh file
under `older_than_days = 7`; and the same cache full-wiped with the
argument absent. -/
theorem clean_cache_modes_witness :
    cwFresh.cacheExists = true ∧ (7 : Int) ≠ 0 ∧ cwFresh.rmtreeFails = false ∧
    clean_cache cwFresh (some 7) =
      (⟨cwFresh.files.filter (fun f =>
          !(cwFresh.stillExists f.path &&
            decide (f.mtime < cwFresh.now - 7 * 24 * 60 * 60) &&
            !cwFresh.removeFails f.path)), true, cwFresh.downloadExists⟩, true) ∧
    clean_cache cwFresh none = (⟨[], true, true⟩, true) :=
  ⟨rfl, by decide, rfl,
   (clean_cache_modes cwFresh rfl).1 7 (by decide),
   ((clean_cache_modes cwFresh rfl).2 rfl).1⟩

/-- C10: when the cache root does not exist, `clean_cache` returns true
immediately for every `older_than_days` argument, leaving the file set
and both directory-existence facts unchanged. -/
theorem clean_cache_missing_root (w : CacheWorld) (d : Option Int)
    (h : w.cacheExists = false) :
    clean_cache w d = (⟨w.files, w.cacheExists, w.downloadExists⟩, true) := by
  simp [clean_cache, h]

/-- Witness for C10: a cache world with no cache root, probed with both an
absent and a supplied age bound. -/
theorem clean_cache_missing_root_witness :
    ({ cwFresh with cacheExists := false } : CacheWorld).cacheExists = false ∧
    clean_cache { cwFresh with cacheExists := false } (some 7) =
      (⟨cwFresh.files, false, cwFresh.downloadExists⟩, true) :=
  ⟨rfl, clean_cache_missing_root { cwFresh with cacheExists := false } (some 7) rfl⟩

end UvManager
